import Mathlib

/-!
Shallow embedding of `src/backend/server.py` (an agent-management and chat
backend).  The Mongo collections become lists of typed documents, the FastAPI
handlers become pure functions threading an explicit `Store`, and the
nondeterministic inputs of a handler (generated UUIDs, current time, the
external LLM provider) are passed as explicit parameters.  Raised
`HTTPException`s and other exceptions become an `Except Err` result.
-/

namespace VoiceBot

/-- Timezone-aware UTC datetime, as produced by `datetime.now(timezone.utc)`:
year/month/day/hour/minute/second/microsecond components. -/
structure DateTime where
  year : Nat
  month : Nat
  day : Nat
  hour : Nat
  minute : Nat
  second : Nat
  usec : Nat
deriving DecidableEq, Repr

/-- The range invariants a real `datetime` value satisfies (day-in-month
granularity coarsened to `≤ 31`). -/
def DateTime.Valid (d : DateTime) : Prop :=
  1 ≤ d.year ∧ d.year ≤ 9999 ∧ 1 ≤ d.month ∧ d.month ≤ 12 ∧
  1 ≤ d.day ∧ d.day ≤ 31 ∧ d.hour ≤ 23 ∧ d.minute ≤ 59 ∧
  d.second ≤ 59 ∧ d.usec ≤ 999999

instance (d : DateTime) : Decidable d.Valid := by
  unfold DateTime.Valid; infer_instance

/-- The character for decimal digit `d` (`0 ↦ '0'`, …). -/
def digitChar (d : Nat) : Char := Char.ofNat (48 + d)

/-- Numeric value of a decimal digit character. -/
def digitVal (c : Char) : Nat := c.toNat - 48

/-- `n` rendered as exactly `k` decimal digits, most significant first
(zero-padded), as in `%0kd` formatting. -/
def padMS : Nat → Nat → List Char
  | 0, _ => []
  | k + 1, n => digitChar (n / 10 ^ k) :: padMS k (n % 10 ^ k)

/-- Consume exactly `k` decimal digits, returning the accumulated value and
the rest of the input. -/
def parseDigits : Nat → Nat → List Char → Option (Nat × List Char)
  | 0, acc, cs => some (acc, cs)
  | k + 1, acc, c :: cs =>
      if c.isDigit then parseDigits k (acc * 10 + digitVal c) cs else none
  | _ + 1, _, [] => none

/-- The `+00:00` offset suffix a timezone-aware UTC datetime prints. -/
def tzSuffix : List Char := ['+', '0', '0', ':', '0', '0']

/-- ISO-8601 rendering of a UTC datetime, exactly as Python
`datetime.isoformat()` prints it: `YYYY-MM-DDTHH:MM:SS[.ffffff]+00:00`, the
fractional part omitted when the microsecond component is zero. -/
def isoformatList (d : DateTime) : List Char :=
  padMS 4 d.year ++ '-' ::
  (padMS 2 d.month ++ '-' ::
  (padMS 2 d.day ++ 'T' ::
  (padMS 2 d.hour ++ ':' ::
  (padMS 2 d.minute ++ ':' ::
  (padMS 2 d.second ++
    ((if d.usec = 0 then [] else '.' :: padMS 6 d.usec) ++ tzSuffix))))))

def isoformat (d : DateTime) : String := String.mk (isoformatList d)

/-- Expect one fixed character at the head of the input. -/
def expect (c : Char) : List Char → Option (List Char)
  | c' :: cs => if c' = c then some cs else none
  | [] => none

/-- The optional fractional-seconds part: a `.` followed by six digits, or
nothing (microsecond zero). -/
def parseFrac (cs : List Char) : Option (Nat × List Char) :=
  match cs with
  | c :: cs' => if c = '.' then parseDigits 6 0 cs' else some (0, c :: cs')
  | [] => some (0, [])

/-- Parser underlying `fromisoformat`, on the UTC-offset shapes this system
produces: `YYYY-MM-DDTHH:MM:SS[.ffffff]+00:00`, with range validation as in
Python `datetime.fromisoformat`. -/
def fromisoformatList (cs : List Char) : Option DateTime :=
  match parseDigits 4 0 cs with
  | none => none
  | some (y, cs) =>
  match expect '-' cs with
  | none => none
  | some cs =>
  match parseDigits 2 0 cs with
  | none => none
  | some (mo, cs) =>
  match expect '-' cs with
  | none => none
  | some cs =>
  match parseDigits 2 0 cs with
  | none => none
  | some (da, cs) =>
  match expect 'T' cs with
  | none => none
  | some cs =>
  match parseDigits 2 0 cs with
  | none => none
  | some (h, cs) =>
  match expect ':' cs with
  | none => none
  | some cs =>
  match parseDigits 2 0 cs with
  | none => none
  | some (mi, cs) =>
  match expect ':' cs with
  | none => none
  | some cs =>
  match parseDigits 2 0 cs with
  | none => none
  | some (se, cs) =>
  match parseFrac cs with
  | none => none
  | some (us, cs) =>
  if cs = tzSuffix then
    let d : DateTime := ⟨y, mo, da, h, mi, se, us⟩
    if d.Valid then some d else none
  else none

def fromisoformat (s : String) : Option DateTime := fromisoformatList s.toList

theorem digit_spec (d : Nat) (h : d < 10) :
    (digitChar d).isDigit = true ∧ digitVal (digitChar d) = d := by
  interval_cases d <;> exact ⟨by decide, by decide⟩

/-- Parsing `k` digits off a `k`-digit rendering recovers the value. -/
theorem parseDigits_padMS (k : Nat) :
    ∀ (n acc : Nat) (rest : List Char), n < 10 ^ k →
      parseDigits k acc (padMS k n ++ rest) = some (acc * 10 ^ k + n, rest) := by
  induction k with
  | zero =>
    intro n acc rest hn
    have : n = 0 := Nat.lt_one_iff.mp hn
    simp [padMS, parseDigits, this]
  | succ k ih =>
    intro n acc rest hn
    have hq : n / 10 ^ k < 10 := by
      have : n < 10 * 10 ^ k := by
        have := hn; rw [pow_succ] at this; omega
      exact Nat.div_lt_of_lt_mul (by omega)
    have hr : n % 10 ^ k < 10 ^ k := Nat.mod_lt _ (Nat.pos_pow_of_pos k (by norm_num))
    obtain ⟨hdig, hval⟩ := digit_spec (n / 10 ^ k) hq
    simp only [padMS, List.cons_append, parseDigits, hdig, if_true, hval,
      List.append_eq]
    rw [ih (n % 10 ^ k) (acc * 10 + n / 10 ^ k) rest hr]
    congr 2
    have harith : (acc * 10 + n / 10 ^ k) * 10 ^ k + n % 10 ^ k
        = acc * 10 ^ (k + 1) + (10 ^ k * (n / 10 ^ k) + n % 10 ^ k) := by ring
    rw [harith, Nat.div_add_mod]

theorem parseDigits_padMS0 (k n : Nat) (rest : List Char) (h : n < 10 ^ k) :
    parseDigits k 0 (padMS k n ++ rest) = some (n, rest) := by
  rw [parseDigits_padMS k n 0 rest h]; simp

theorem expect_cons (c : Char) (cs : List Char) :
    expect c (c :: cs) = some cs := by
  simp [expect]

theorem parseFrac_pad (u : Nat) (hu : u < 10 ^ 6) :
    parseFrac ((if u = 0 then [] else '.' :: padMS 6 u) ++ tzSuffix)
      = some (u, tzSuffix) := by
  by_cases h0 : u = 0
  · subst h0; simp [parseFrac, tzSuffix]
  · rw [if_neg h0]
    simp only [List.cons_append, parseFrac, if_pos rfl]
    exact parseDigits_padMS0 6 u tzSuffix hu

/-- The structured → ISO-8601 string → structured round-trip is lossless
(to the microsecond, hence in particular to the second) on every valid
datetime. -/
theorem fromisoformat_isoformat (d : DateTime) (hv : d.Valid) :
    fromisoformat (isoformat d) = some d := by
  obtain ⟨y, mo, da, h, mi, se, us⟩ := d
  obtain ⟨h1, h2, h3, h4, h5, h6, h7, h8, h9, h10⟩ := hv
  dsimp only at h1 h2 h3 h4 h5 h6 h7 h8 h9 h10
  have hy : ∀ rest, parseDigits 4 0 (padMS 4 y ++ rest) = some (y, rest) :=
    fun rest => parseDigits_padMS0 4 y rest (by norm_num; omega)
  have hmo : ∀ rest, parseDigits 2 0 (padMS 2 mo ++ rest) = some (mo, rest) :=
    fun rest => parseDigits_padMS0 2 mo rest (by norm_num; omega)
  have hda : ∀ rest, parseDigits 2 0 (padMS 2 da ++ rest) = some (da, rest) :=
    fun rest => parseDigits_padMS0 2 da rest (by norm_num; omega)
  have hh : ∀ rest, parseDigits 2 0 (padMS 2 h ++ rest) = some (h, rest) :=
    fun rest => parseDigits_padMS0 2 h rest (by norm_num; omega)
  have hmi : ∀ rest, parseDigits 2 0 (padMS 2 mi ++ rest) = some (mi, rest) :=
    fun rest => parseDigits_padMS0 2 mi rest (by norm_num; omega)
  have hse : ∀ rest, parseDigits 2 0 (padMS 2 se ++ rest) = some (se, rest) :=
    fun rest => parseDigits_padMS0 2 se rest (by norm_num; omega)
  have hus := parseFrac_pad us (by norm_num; omega)
  have hvd : DateTime.Valid ⟨y, mo, da, h, mi, se, us⟩ :=
    ⟨h1, h2, h3, h4, h5, h6, h7, h8, h9, h10⟩
  show fromisoformatList (isoformatList ⟨y, mo, da, h, mi, se, us⟩) = _
  simp only [isoformatList, fromisoformatList, hy, hmo, hda, hh, hmi, hse,
    expect_cons, hus]
  simp [hvd]

/-! ## Domain models (the pydantic models of `server.py`) -/

/-- In-memory `Agent` model: generated id and creation timestamp, defaulted
`language="hindi"` and `is_active=True`. -/
structure Agent where
  id : String
  name : String
  description : String
  system_prompt : String
  language : String
  is_active : Bool
  created_at : DateTime
deriving DecidableEq, Repr

structure AgentCreate where
  name : String
  description : String
  system_prompt : String
  language : String := "hindi"
deriving DecidableEq, Repr

/-- Partial update body: every field optional, `None` meaning "leave as is". -/
structure AgentUpdate where
  name : Option String := none
  description : Option String := none
  system_prompt : Option String := none
  language : Option String := none
  is_active : Option Bool := none
deriving DecidableEq, Repr

structure LLMConfig where
  id : String
  provider : String
  api_key : String
  model_name : String
  created_at : DateTime
deriving DecidableEq, Repr

structure LLMConfigCreate where
  provider : String
  api_key : String
  model_name : String
deriving DecidableEq, Repr

structure ConversationMessage where
  id : String
  session_id : String
  agent_id : String
  role : String
  content : String
  timestamp : DateTime
deriving DecidableEq, Repr

structure ChatRequest where
  agent_id : String
  message : String
  session_id : Option String := none
deriving DecidableEq, Repr

structure ChatResponse where
  response : String
  session_id : String
deriving DecidableEq, Repr

/-! ## Stored documents

The handlers convert the timestamp to an ISO string before `insert_one` /
`insert_many`, and the read paths check `isinstance(..., str)` before parsing
back, so a stored timestamp field is either a string or a structured value. -/

/-- A stored timestamp: ISO string (what this system writes) or an
already-structured value (what the `isinstance` check passes through). -/
inductive DocTime where
  | str (s : String)
  | dt (d : DateTime)
deriving DecidableEq, Repr

/-- `created_at` rehydration performed by the read paths:
`if isinstance(created_at, str): created_at = datetime.fromisoformat(...)`.
`none` models the `ValueError` an unparseable string raises. -/
def rehydrate : DocTime → Option DateTime
  | .str s => fromisoformat s
  | .dt d => some d

/-- A document of the `agents` collection. -/
structure AgentDoc where
  id : String
  name : String
  description : String
  system_prompt : String
  language : String
  is_active : Bool
  created_at : DocTime
deriving DecidableEq, Repr

/-- A document of the `llm_configs` collection. -/
structure LLMConfigDoc where
  id : String
  provider : String
  api_key : String
  model_name : String
  created_at : DocTime
deriving DecidableEq, Repr

/-- A document of the `conversations` collection. -/
structure ConversationDoc where
  id : String
  session_id : String
  agent_id : String
  role : String
  content : String
  timestamp : DocTime
deriving DecidableEq, Repr

/-- `doc = agent.model_dump(); doc['created_at'] = doc['created_at'].isoformat()`. -/
def Agent.toDoc (a : Agent) : AgentDoc :=
  { id := a.id, name := a.name, description := a.description,
    system_prompt := a.system_prompt, language := a.language,
    is_active := a.is_active, created_at := .str (isoformat a.created_at) }

/-- An agent document read back with its timestamp rehydrated. -/
def AgentDoc.toAgent (doc : AgentDoc) (ts : DateTime) : Agent :=
  { id := doc.id, name := doc.name, description := doc.description,
    system_prompt := doc.system_prompt, language := doc.language,
    is_active := doc.is_active, created_at := ts }

def LLMConfig.toDoc (c : LLMConfig) : LLMConfigDoc :=
  { id := c.id, provider := c.provider, api_key := c.api_key,
    model_name := c.model_name, created_at := .str (isoformat c.created_at) }

def LLMConfigDoc.toConfig (doc : LLMConfigDoc) (ts : DateTime) : LLMConfig :=
  { id := doc.id, provider := doc.provider, api_key := doc.api_key,
    model_name := doc.model_name, created_at := ts }

/-- `doc = msg.model_dump(); doc['timestamp'] = doc['timestamp'].isoformat()`. -/
def ConversationMessage.toDoc (m : ConversationMessage) : ConversationDoc :=
  { id := m.id, session_id := m.session_id, agent_id := m.agent_id,
    role := m.role, content := m.content,
    timestamp := .str (isoformat m.timestamp) }

/-- The document store: the three Mongo collections, each in insertion order. -/
structure Store where
  agents : List AgentDoc
  llm_configs : List LLMConfigDoc
  conversations : List ConversationDoc
deriving DecidableEq, Repr

def Store.empty : Store := ⟨[], [], []⟩

/-! ## Mongo primitives on a collection (a list of documents) -/

/-- `update_one(filter, {"$set": ...})`: apply `f` to the first matching
document, leave the rest unchanged. -/
def updateFirst (p : α → Bool) (f : α → α) : List α → List α
  | [] => []
  | x :: xs => if p x then f x :: xs else x :: updateFirst p f xs

/-- `delete_one(filter)`: remove the first matching document; the returned
flag is `deleted_count == 1`. -/
def deleteFirst (p : α → Bool) : List α → List α × Bool
  | [] => ([], false)
  | x :: xs =>
      if p x then (xs, true)
      else
        let (rest, found) := deleteFirst p xs
        (x :: rest, found)

/-! ## Handlers

Exceptions escaping a handler are modelled by `Except Err`:
`notFound` is a raised `HTTPException(404, detail)`, `upstream` an exception
out of the external LLM call, `internal` any other uncaught exception
(e.g. `ValueError` from `fromisoformat` on a corrupt stored string). -/

inductive Err where
  | notFound (detail : String)
  | upstream (msg : String)
  | internal
deriving DecidableEq, Repr

/-- `POST /agents`: build the `Agent` (generated id and timestamp passed in
explicitly), insert its document with the timestamp as ISO string, and return
the in-memory record. -/
def create_agent (agent_data : AgentCreate) (freshId : String)
    (now : DateTime) (s : Store) : Agent × Store :=
  let agent : Agent :=
    { id := freshId, name := agent_data.name,
      description := agent_data.description,
      system_prompt := agent_data.system_prompt,
      language := agent_data.language, is_active := true, created_at := now }
  (agent, { s with agents := s.agents ++ [agent.toDoc] })

/-- The rehydration loop of `get_agents`: parse each `created_at` in order,
failing at the first unparseable one (the raised `ValueError`). -/
def hydrateAgents : List AgentDoc → Option (List Agent)
  | [] => some []
  | doc :: rest =>
      match rehydrate doc.created_at with
      | none => none
      | some ts => (hydrateAgents rest).map (doc.toAgent ts :: ·)

/-- `GET /agents`: `find({}).to_list(1000)` then rehydrate each `created_at`;
`none` models the `ValueError` raised on the first unparseable timestamp. -/
def get_agents (s : Store) : Option (List Agent) :=
  hydrateAgents (s.agents.take 1000)

/-- `GET /agents/{agent_id}`. -/
def get_agent (agent_id : String) (s : Store) : Except Err Agent :=
  match s.agents.find? (fun a => a.id == agent_id) with
  | none => .error (.notFound "Agent not found")
  | some doc =>
      match rehydrate doc.created_at with
      | none => .error .internal
      | some ts => .ok (doc.toAgent ts)

/-- The `$set` document `{k: v for k, v in update.model_dump().items()
if v is not None}` applied to a stored agent document: each provided field
overwrites, each `None` field is left alone (`created_at` is never a key). -/
def applyUpdate (doc : AgentDoc) (u : AgentUpdate) : AgentDoc :=
  { doc with
    name := u.name.getD doc.name,
    description := u.description.getD doc.description,
    system_prompt := u.system_prompt.getD doc.system_prompt,
    language := u.language.getD doc.language,
    is_active := u.is_active.getD doc.is_active }

/-- Whether `update_data` is non-empty (`if update_data:`). -/
def AgentUpdate.nonempty (u : AgentUpdate) : Bool :=
  u.name.isSome || u.description.isSome || u.system_prompt.isSome ||
  u.language.isSome || u.is_active.isSome

/-- `PUT /agents/{agent_id}`: 404 when absent; otherwise `$set` the non-null
fields (skipping the write when there are none), re-read the document and
return it rehydrated. -/
def update_agent (agent_id : String) (agent_update : AgentUpdate)
    (s : Store) : Except Err Agent × Store :=
  match s.agents.find? (fun a => a.id == agent_id) with
  | none => (.error (.notFound "Agent not found"), s)
  | some _ =>
      let s' :=
        if agent_update.nonempty then
          { s with agents := (updateFirst (fun a => a.id == agent_id)
              (fun a => applyUpdate a agent_update) s.agents) }
        else s
      match s'.agents.find? (fun a => a.id == agent_id) with
      | none => (.error .internal, s')
      | some doc =>
          match rehydrate doc.created_at with
          | none => (.error .internal, s')
          | some ts => (.ok (doc.toAgent ts), s')

/-- `DELETE /agents/{agent_id}`. -/
def delete_agent (agent_id : String) (s : Store) :
    Except Err String × Store :=
  let (rest, found) := deleteFirst (fun a => a.id == agent_id) s.agents
  if found then (.ok "Agent deleted successfully", { s with agents := rest })
  else (.error (.notFound "Agent not found"), { s with agents := rest })

/-- `POST /llm-configs`. -/
def create_llm_config (config_data : LLMConfigCreate) (freshId : String)
    (now : DateTime) (s : Store) : LLMConfig × Store :=
  let config : LLMConfig :=
    { id := freshId, provider := config_data.provider,
      api_key := config_data.api_key, model_name := config_data.model_name,
      created_at := now }
  (config, { s with llm_configs := s.llm_configs ++ [config.toDoc] })

/-- The rehydration loop of `get_llm_configs`. -/
def hydrateConfigs : List LLMConfigDoc → Option (List LLMConfig)
  | [] => some []
  | doc :: rest =>
      match rehydrate doc.created_at with
      | none => none
      | some ts => (hydrateConfigs rest).map (doc.toConfig ts :: ·)

/-- `GET /llm-configs`. -/
def get_llm_configs (s : Store) : Option (List LLMConfig) :=
  hydrateConfigs (s.llm_configs.take 1000)

/-- `DELETE /llm-configs/{config_id}`. -/
def delete_llm_config (config_id : String) (s : Store) :
    Except Err String × Store :=
  let (rest, found) := deleteFirst (fun c => c.id == config_id) s.llm_configs
  if found then
    (.ok "Configuration deleted successfully", { s with llm_configs := rest })
  else
    (.error (.notFound "Configuration not found"), { s with llm_configs := rest })

/-! ## Chat endpoint -/

/-- Python truthiness of `request.session_id or str(uuid.uuid4())`: a missing
*or empty* provided string falls back to the fresh UUID. -/
def pyOr (provided : Option String) (freshly : String) : String :=
  match provided with
  | some sid => if sid = "" then freshly else sid
  | none => freshly

/-- The single call `LlmChat(api_key, session_id, system_message)
.with_model(provider, model).send_message(UserMessage(text))` hands to the
external SDK. -/
structure LlmRequest where
  api_key : Option String
  session_id : String
  system_message : String
  provider : String
  model : String
  text : String
deriving DecidableEq, Repr

/-- The per-request generated values of the chat handler: the fallback
session UUID, the two message UUIDs and the two message timestamps. -/
structure ChatFresh where
  sessionId : String
  userMsgId : String
  assistantMsgId : String
  userTs : DateTime
  assistantTs : DateTime
deriving DecidableEq, Repr

/-- `POST /chat`: resolve the agent (404 if absent), choose the session id,
call the external provider with the hardcoded `("gemini", "gemini-2.0-flash")`
model, and only on success build and `insert_many` the user and assistant
`ConversationMessage` documents and return the reply. The external provider
is the function argument `llm`; a raised provider exception is its `.error`
case and propagates with nothing persisted. -/
def chat_with_agent (request : ChatRequest) (fresh : ChatFresh)
    (llm : LlmRequest → Except String String) (api_key : Option String)
    (s : Store) : Except Err ChatResponse × Store :=
  match s.agents.find? (fun a => a.id == request.agent_id) with
  | none => (.error (.notFound "Agent not found"), s)
  | some agent =>
      let session_id := pyOr request.session_id fresh.sessionId
      let llmReq : LlmRequest :=
        { api_key := api_key, session_id := session_id,
          system_message := agent.system_prompt,
          provider := "gemini", model := "gemini-2.0-flash",
          text := request.message }
      match llm llmReq with
      | .error e => (.error (.upstream e), s)
      | .ok response =>
          let user_msg : ConversationMessage :=
            { id := fresh.userMsgId, session_id := session_id,
              agent_id := request.agent_id, role := "user",
              content := request.message, timestamp := fresh.userTs }
          let assistant_msg : ConversationMessage :=
            { id := fresh.assistantMsgId, session_id := session_id,
              agent_id := request.agent_id, role := "assistant",
              content := response, timestamp := fresh.assistantTs }
          let s' := { s with conversations :=
            s.conversations ++ [user_msg.toDoc, assistant_msg.toDoc] }
          (.ok { response := response, session_id := session_id }, s')

/-! ## Startup -/

/-- The default agent's fixed system prompt (the apostrophe written `\x27`). -/
def orderPrompt : String :=
  "You are an order-taking voice bot that speaks in clear Hindi. Your job is to take orders from customers.\n\nInstructions:\n1. Always speak in clear and simple Hindi\n2. Let the customer speak - do not interrupt\n3. When customer says something, let them finish completely\n4. Listen patiently and understand\n5. Collect all information before confirming the order\n\nOrder taking process:\n1. Say Namaste and ask what they want to order\n2. Note the item name\n3. Ask for quantity\n4. Ask for delivery address\n5. Confirm contact number\n6. Repeat all order information\n7. Ask for confirmation\n\nRemember:\n- Speak in short sentences\n- Wait for customer response\n- Be polite and helpful\n- If you don\x27t understand, ask again\n\nStart with: Namaste! Main aapke order mein madad karunga. Aap kya order karna chahte hain?"

/-- `startup_event`: look the default agent up **by name**; create it only
when absent. -/
def startup_event (freshId : String) (now : DateTime) (s : Store) : Store :=
  match s.agents.find? (fun a => a.name == "Order Taking Agent") with
  | some _ => s
  | none =>
      let order_agent : Agent :=
        { id := freshId, name := "Order Taking Agent",
          description := "Hindi voice bot for taking customer orders",
          system_prompt := orderPrompt, language := "hindi",
          is_active := true, created_at := now }
      { s with agents := s.agents ++ [order_agent.toDoc] }

/-! ## Helper lemmas on the Mongo primitives -/

theorem find?_middle {α} (p : α → Bool) (pre post : List α) (x : α)
    (hpre : ∀ d ∈ pre, p d = false) (hx : p x = true) :
    List.find? p (pre ++ x :: post) = some x := by
  induction pre with
  | nil => simp [List.find?_cons_of_pos _ hx]
  | cons a as ih =>
    have ha : p a = false := hpre a (by simp)
    rw [List.cons_append, List.find?_cons_of_neg _ (by simp [ha])]
    exact ih fun d hd => hpre d (by simp [hd])

theorem find?_eq_none_of_all {α} (p : α → Bool) (l : List α)
    (h : ∀ d ∈ l, p d = false) : List.find? p l = none :=
  List.find?_eq_none.mpr fun x hx => by simp [h x hx]

theorem updateFirst_middle {α} (p : α → Bool) (f : α → α)
    (pre post : List α) (x : α)
    (hpre : ∀ d ∈ pre, p d = false) (hx : p x = true) :
    updateFirst p f (pre ++ x :: post) = pre ++ f x :: post := by
  induction pre with
  | nil => simp [updateFirst, hx]
  | cons a as ih =>
    have ha : p a = false := hpre a (by simp)
    simp only [List.cons_append, updateFirst, ha, Bool.false_eq_true,
      if_false, List.cons.injEq, true_and]
    exact ih fun d hd => hpre d (by simp [hd])

/-! ## Claim theorems -/

/-- C1: a chat request whose `agent_id` matches no stored agent yields the
404 "Agent not found" error and leaves the store — in particular the
`conversations` collection — unchanged. -/
theorem chat_unknown_agent_404_no_write (request : ChatRequest)
    (fresh : ChatFresh) (llm : LlmRequest → Except String String)
    (key : Option String) (s : Store)
    (habs : ∀ d ∈ s.agents, d.id ≠ request.agent_id) :
    chat_with_agent request fresh llm key s
      = (.error (.notFound "Agent not found"), s) := by
  have hfind : s.agents.find? (fun a => a.id == request.agent_id) = none :=
    find?_eq_none_of_all _ _ fun d hd => by simp [habs d hd]
  simp [chat_with_agent, hfind]

def wAgentDoc : AgentDoc :=
  { id := "a1", name := "Test", description := "d", system_prompt := "p",
    language := "english", is_active := true,
    created_at := .str "2024-05-01T10:20:30+00:00" }

def wStore : Store := ⟨[wAgentDoc], [], []⟩

def wFresh : ChatFresh :=
  { sessionId := "fresh-session", userMsgId := "m1", assistantMsgId := "m2",
    userTs := ⟨2024, 5, 1, 10, 20, 31, 0⟩,
    assistantTs := ⟨2024, 5, 1, 10, 20, 32, 0⟩ }

def wLlmOk : LlmRequest → Except String String := fun _ => .ok "hello"

theorem chat_unknown_agent_404_no_write_witness :
    (∀ d ∈ wStore.agents, d.id ≠ "zzz") ∧
    chat_with_agent ⟨"zzz", "hi", none⟩ wFresh wLlmOk none wStore
      = (.error (.notFound "Agent not found"), wStore) :=
  ⟨by decide,
   chat_unknown_agent_404_no_write ⟨"zzz", "hi", none⟩ wFresh wLlmOk none
     wStore (by decide)⟩

/-- C2: when the agent exists but the external LLM provider call raises, the
error propagates out of the handler as an upstream (server-side) failure and
the store — in particular the `conversations` collection — is unchanged: the
two turns are only written after a successful reply. -/
theorem chat_llm_failure_propagates_no_write (request : ChatRequest)
    (fresh : ChatFresh) (llm : LlmRequest → Except String String)
    (key : Option String) (s : Store) (agentDoc : AgentDoc) (e : String)
    (hfind : s.agents.find? (fun a => a.id == request.agent_id)
      = some agentDoc)
    (hfail : llm { api_key := key,
                   session_id := pyOr request.session_id fresh.sessionId,
                   system_message := agentDoc.system_prompt,
                   provider := "gemini", model := "gemini-2.0-flash",
                   text := request.message } = .error e) :
    chat_with_agent request fresh llm key s = (.error (.upstream e), s) := by
  simp [chat_with_agent, hfind, hfail]

def wLlmFail : LlmRequest → Except String String := fun _ => .error "boom"

theorem chat_llm_failure_propagates_no_write_witness :
    wStore.agents.find? (fun a => a.id == "a1") = some wAgentDoc ∧
    chat_with_agent ⟨"a1", "hi", none⟩ wFresh wLlmFail none wStore
      = (.error (.upstream "boom"), wStore) :=
  ⟨by decide,
   chat_llm_failure_propagates_no_write ⟨"a1", "hi", none⟩ wFresh wLlmFail
     none wStore wAgentDoc "boom" (by decide) rfl⟩


def wReqNoSession : ChatRequest :=
  { agent_id := "a1", message := "hi", session_id := none }

def wReqEmptySession : ChatRequest :=
  { agent_id := "a1", message := "hi", session_id := some "" }

/-- C3 (as stated) is false: the handler computes
`request.session_id or str(uuid.uuid4())`, and Python truthiness treats a
provided *empty* string as absent, so the explicitly provided session_id ""
is not echoed back — a fresh UUID is returned instead. -/
theorem chat_empty_session_not_echoed :
    wReqEmptySession.session_id = some "" ∧
    (chat_with_agent wReqEmptySession wFresh wLlmOk none wStore).1
      = .ok { response := "hello", session_id := "fresh-session" } ∧
    ("fresh-session" : String) ≠ "" := by
  exact ⟨rfl, rfl, by decide⟩

/-- C3 (amended): on a successful chat, if no session_id — or an empty-string
session_id — was provided, the returned session_id is the freshly minted
UUID, distinct from any previously issued one; if a non-empty session_id was
provided, the returned session_id equals it unchanged. -/
theorem chat_session_id_contract (request : ChatRequest) (fresh : ChatFresh)
    (llm : LlmRequest → Except String String) (key : Option String)
    (s : Store) (agentDoc : AgentDoc) (r : String) (issued : List String)
    (hfind : s.agents.find? (fun a => a.id == request.agent_id)
      = some agentDoc)
    (hllm : ∀ sess, llm
      { api_key := key, session_id := sess,
        system_message := agentDoc.system_prompt, provider := "gemini",
        model := "gemini-2.0-flash", text := request.message } = .ok r)
    (hnew : fresh.sessionId ∉ issued) :
    ∃ sid', (chat_with_agent request fresh llm key s).1
        = .ok { response := r, session_id := sid' } ∧
      (request.session_id = none ∨ request.session_id = some "" →
        sid' = fresh.sessionId ∧ sid' ∉ issued) ∧
      (∀ sid, request.session_id = some sid → sid ≠ "" → sid' = sid) := by
  refine ⟨pyOr request.session_id fresh.sessionId, ?_, ?_, ?_⟩
  · simp [chat_with_agent, hfind, hllm]
  · rintro (hnone | hempty)
    · simp [pyOr, hnone, hnew]
    · simp [pyOr, hempty, hnew]
  · intro sid hsid hne
    simp [pyOr, hsid, hne]

theorem chat_session_id_contract_witness :
    (wStore.agents.find? (fun a => a.id == "a1") = some wAgentDoc) ∧
    (∀ sess, wLlmOk
      { api_key := none, session_id := sess,
        system_message := wAgentDoc.system_prompt, provider := "gemini",
        model := "gemini-2.0-flash", text := "hi" } = .ok "hello") ∧
    ("fresh-session" : String) ∉ (["old-session"] : List String) ∧
    (∃ sid', (chat_with_agent wReqNoSession wFresh wLlmOk none wStore).1
        = .ok { response := "hello", session_id := sid' } ∧
      (wReqNoSession.session_id = none ∨
          wReqNoSession.session_id = some "" →
        sid' = "fresh-session" ∧ sid' ∉ (["old-session"] : List String)) ∧
      (∀ sid, wReqNoSession.session_id = some sid → sid ≠ "" →
        sid' = sid)) :=
  ⟨by decide, fun _ => rfl, by decide,
   chat_session_id_contract wReqNoSession wFresh wLlmOk none wStore
     wAgentDoc "hello" ["old-session"] (by decide) (fun _ => rfl)
     (by decide)⟩

/-- C7: every successful chat appends exactly the user-turn and
assistant-turn documents (in that order) to the `conversations` collection;
they share the resolved session_id and the request's agent_id, carry the two
independently generated ids and timestamps, and the returned reply is the
assistant turn's content.  The other collections are untouched. -/
theorem chat_success_persists_two_turns (request : ChatRequest)
    (fresh : ChatFresh) (llm : LlmRequest → Except String String)
    (key : Option String) (s : Store) (resp : ChatResponse) (s' : Store)
    (hok : chat_with_agent request fresh llm key s = (.ok resp, s'))
    (hids : fresh.userMsgId ≠ fresh.assistantMsgId) :
    ∃ udoc adoc : ConversationDoc,
      s'.conversations = s.conversations ++ [udoc, adoc] ∧
      udoc.role = "user" ∧ adoc.role = "assistant" ∧
      udoc.session_id = resp.session_id ∧
      adoc.session_id = resp.session_id ∧
      udoc.agent_id = request.agent_id ∧ adoc.agent_id = request.agent_id ∧
      udoc.id = fresh.userMsgId ∧ adoc.id = fresh.assistantMsgId ∧
      udoc.id ≠ adoc.id ∧
      udoc.timestamp = .str (isoformat fresh.userTs) ∧
      adoc.timestamp = .str (isoformat fresh.assistantTs) ∧
      udoc.content = request.message ∧ adoc.content = resp.response ∧
      s'.agents = s.agents ∧ s'.llm_configs = s.llm_configs := by
  unfold chat_with_agent at hok
  split at hok
  · exact absurd hok (by simp)
  · dsimp only at hok
    split at hok
    · exact absurd hok (by simp)
    · injection hok with h1 h2
      injection h1 with h1
      subst h2
      subst h1
      exact ⟨_, _, rfl, rfl, rfl, rfl, rfl, rfl, rfl, rfl, rfl, hids, rfl,
        rfl, rfl, rfl, rfl, rfl⟩

def wUserDoc : ConversationDoc :=
  { id := "m1", session_id := "fresh-session", agent_id := "a1",
    role := "user", content := "hi",
    timestamp := .str (isoformat wFresh.userTs) }

def wAssistantDoc : ConversationDoc :=
  { id := "m2", session_id := "fresh-session", agent_id := "a1",
    role := "assistant", content := "hello",
    timestamp := .str (isoformat wFresh.assistantTs) }

def wStoreAfterChat : Store :=
  { wStore with conversations :=
      wStore.conversations ++ [wUserDoc, wAssistantDoc] }

theorem chat_success_persists_two_turns_witness :
    (chat_with_agent wReqNoSession wFresh wLlmOk none wStore
      = (.ok { response := "hello", session_id := "fresh-session" },
         wStoreAfterChat)) ∧
    ("m1" : String) ≠ "m2" ∧
    (∃ udoc adoc : ConversationDoc,
      wStoreAfterChat.conversations = wStore.conversations ++ [udoc, adoc] ∧
      udoc.role = "user" ∧ adoc.role = "assistant" ∧
      udoc.session_id = "fresh-session" ∧
      adoc.session_id = "fresh-session" ∧
      udoc.agent_id = "a1" ∧ adoc.agent_id = "a1" ∧
      udoc.id = "m1" ∧ adoc.id = "m2" ∧
      udoc.id ≠ adoc.id ∧
      udoc.timestamp = .str (isoformat wFresh.userTs) ∧
      adoc.timestamp = .str (isoformat wFresh.assistantTs) ∧
      udoc.content = "hi" ∧ adoc.content = "hello" ∧
      wStoreAfterChat.agents = wStore.agents ∧
      wStoreAfterChat.llm_configs = wStore.llm_configs) :=
  ⟨rfl, by decide,
   chat_success_persists_two_turns wReqNoSession wFresh wLlmOk none wStore
     { response := "hello", session_id := "fresh-session" } wStoreAfterChat
     rfl (by decide)⟩

/-- C9: the chat path neither reads nor writes the `llm_configs` collection
and calls the external provider only with the hardcoded
`("gemini", "gemini-2.0-flash")` provider/model: two stores agreeing on
`agents` and `conversations` (but with arbitrary `llm_configs`), under two
provider functions agreeing on all gemini/gemini-2.0-flash calls, produce
the same response and the same `agents`/`conversations` collections, and
each run leaves its own `llm_configs` untouched. -/
theorem chat_independent_of_llm_configs (request : ChatRequest)
    (fresh : ChatFresh) (key : Option String)
    (llm1 llm2 : LlmRequest → Except String String) (s1 s2 : Store)
    (hag : s1.agents = s2.agents)
    (hconv : s1.conversations = s2.conversations)
    (hllm : ∀ r : LlmRequest, r.provider = "gemini" →
      r.model = "gemini-2.0-flash" → llm1 r = llm2 r) :
    (chat_with_agent request fresh llm1 key s1).1
      = (chat_with_agent request fresh llm2 key s2).1 ∧
    (chat_with_agent request fresh llm1 key s1).2.agents
      = (chat_with_agent request fresh llm2 key s2).2.agents ∧
    (chat_with_agent request fresh llm1 key s1).2.conversations
      = (chat_with_agent request fresh llm2 key s2).2.conversations ∧
    (chat_with_agent request fresh llm1 key s1).2.llm_configs
      = s1.llm_configs ∧
    (chat_with_agent request fresh llm2 key s2).2.llm_configs
      = s2.llm_configs := by
  cases hfind : s2.agents.find? (fun a => a.id == request.agent_id) with
  | none =>
    have hfind1 : s1.agents.find? (fun a => a.id == request.agent_id)
      = none := by rw [hag, hfind]
    simp [chat_with_agent, hfind, hfind1, hag, hconv]
  | some agentDoc =>
    have hfind1 : s1.agents.find? (fun a => a.id == request.agent_id)
      = some agentDoc := by rw [hag, hfind]
    have hd := hllm
      { api_key := key,
        session_id := pyOr request.session_id fresh.sessionId,
        system_message := agentDoc.system_prompt, provider := "gemini",
        model := "gemini-2.0-flash", text := request.message } rfl rfl
    cases hres : llm2
      { api_key := key,
        session_id := pyOr request.session_id fresh.sessionId,
        system_message := agentDoc.system_prompt, provider := "gemini",
        model := "gemini-2.0-flash", text := request.message } with
    | error e => simp [chat_with_agent, hfind, hfind1, hag, hconv, hd, hres]
    | ok r => simp [chat_with_agent, hfind, hfind1, hag, hconv, hd, hres]

def wConfigDoc : LLMConfigDoc :=
  { id := "c1", provider := "openai", api_key := "sk",
    model_name := "gpt-4o", created_at := .str "2024-01-01T00:00:00+00:00" }

def wStoreOtherConfigs : Store := { wStore with llm_configs := [wConfigDoc] }

theorem chat_independent_of_llm_configs_witness :
    (wStore.agents = wStoreOtherConfigs.agents) ∧
    (wStore.conversations = wStoreOtherConfigs.conversations) ∧
    ((chat_with_agent wReqNoSession wFresh wLlmOk none wStore).1
      = (chat_with_agent wReqNoSession wFresh wLlmOk none
          wStoreOtherConfigs).1) :=
  ⟨rfl, rfl,
   (chat_independent_of_llm_configs wReqNoSession wFresh none wLlmOk wLlmOk
     wStore wStoreOtherConfigs rfl rfl (fun _ _ _ => rfl)).1⟩

/-- C4: on an existing agent, Update merges exactly the provided non-null
fields into the stored document (each omitted field — and `created_at`, and
every other stored document — stays byte-identical), returns the merged
record, is a successful no-op when every field is null, and yields the 404
"Agent not found" error (with no write) on an id absent from the store. -/
theorem update_agent_spec (agent_id : String) (u : AgentUpdate)
    (s s2 : Store) (pre post : List AgentDoc) (doc : AgentDoc)
    (ts : DateTime)
    (hsplit : s.agents = pre ++ doc :: post)
    (hpre : ∀ d ∈ pre, d.id ≠ agent_id)
    (hdoc : doc.id = agent_id)
    (hts : rehydrate doc.created_at = some ts)
    (habs : ∀ d ∈ s2.agents, d.id ≠ agent_id) :
    (update_agent agent_id u s
      = (.ok ((applyUpdate doc u).toAgent ts),
         { s with agents := pre ++ applyUpdate doc u :: post })) ∧
    (applyUpdate doc u).id = doc.id ∧
    (applyUpdate doc u).created_at = doc.created_at ∧
    (u.name = none → (applyUpdate doc u).name = doc.name) ∧
    (∀ v, u.name = some v → (applyUpdate doc u).name = v) ∧
    (u.description = none →
      (applyUpdate doc u).description = doc.description) ∧
    (∀ v, u.description = some v → (applyUpdate doc u).description = v) ∧
    (u.system_prompt = none →
      (applyUpdate doc u).system_prompt = doc.system_prompt) ∧
    (∀ v, u.system_prompt = some v → (applyUpdate doc u).system_prompt = v) ∧
    (u.language = none → (applyUpdate doc u).language = doc.language) ∧
    (∀ v, u.language = some v → (applyUpdate doc u).language = v) ∧
    (u.is_active = none → (applyUpdate doc u).is_active = doc.is_active) ∧
    (∀ v, u.is_active = some v → (applyUpdate doc u).is_active = v) ∧
    (u = {} → update_agent agent_id u s = (.ok (doc.toAgent ts), s)) ∧
    (update_agent agent_id u s2
      = (.error (.notFound "Agent not found"), s2)) := by
  have hp : ∀ d ∈ pre, ((fun a => a.id == agent_id) d) = false :=
    fun d hd => by simp [hpre d hd]
  have hd : ((fun a => a.id == agent_id) doc) = true := by simp [hdoc]
  have hd' : ((fun a => a.id == agent_id) (applyUpdate doc u)) = true := by
    simp [applyUpdate, hdoc]
  have hfind : s.agents.find? (fun a => a.id == agent_id) = some doc := by
    rw [hsplit]; exact find?_middle _ _ _ _ hp hd
  have hupd : updateFirst (fun a => a.id == agent_id)
      (fun a => applyUpdate a u) s.agents
      = pre ++ applyUpdate doc u :: post := by
    rw [hsplit]; exact updateFirst_middle _ _ _ _ _ hp hd
  have hfind2 : List.find? (fun a => a.id == agent_id)
      (pre ++ applyUpdate doc u :: post) = some (applyUpdate doc u) :=
    find?_middle _ _ _ _ hp hd'
  have hts' : rehydrate (applyUpdate doc u).created_at = some ts := hts
  have hnoop : u.nonempty = false → applyUpdate doc u = doc := by
    intro hne
    rcases u with ⟨n, de, sp, la, ia⟩
    cases n <;> cases de <;> cases sp <;> cases la <;> cases ia <;>
      first
        | rfl
        | simp [AgentUpdate.nonempty] at hne
  have hmain : update_agent agent_id u s
      = (.ok ((applyUpdate doc u).toAgent ts),
         { s with agents := pre ++ applyUpdate doc u :: post }) := by
    by_cases hne : u.nonempty = true
    · simp only [update_agent, hfind, hne, if_true, hupd, hfind2, hts']
    · have hne' : u.nonempty = false := by
        cases h : u.nonempty
        · rfl
        · exact absurd h hne
      have heq := hnoop hne'
      simp only [update_agent, hfind, hne', Bool.false_eq_true, if_false,
        hts, heq]
      rw [show pre ++ doc :: post = s.agents from hsplit.symm]
  have hnf : update_agent agent_id u s2
      = (.error (.notFound "Agent not found"), s2) := by
    have : s2.agents.find? (fun a => a.id == agent_id) = none :=
      find?_eq_none_of_all _ _ fun d hd => by simp [habs d hd]
    simp [update_agent, this]
  refine ⟨hmain, rfl, rfl, ?_, ?_, ?_, ?_, ?_, ?_, ?_, ?_, ?_, ?_, ?_, hnf⟩
  · intro h; simp [applyUpdate, h]
  · intro v h; simp [applyUpdate, h]
  · intro h; simp [applyUpdate, h]
  · intro v h; simp [applyUpdate, h]
  · intro h; simp [applyUpdate, h]
  · intro v h; simp [applyUpdate, h]
  · intro h; simp [applyUpdate, h]
  · intro v h; simp [applyUpdate, h]
  · intro h; simp [applyUpdate, h]
  · intro v h; simp [applyUpdate, h]
  · intro hu
    have hne' : u.nonempty = false := by subst hu; rfl
    have heq := hnoop hne'
    rw [hmain, heq, show pre ++ doc :: post = s.agents from hsplit.symm]

def wTs : DateTime := ⟨2024, 5, 1, 10, 20, 30, 0⟩

def wUpd : AgentUpdate := { name := some "New Name", is_active := some false }

theorem update_agent_spec_witness :
    (update_agent "a1" wUpd wStore
      = (.ok ((applyUpdate wAgentDoc wUpd).toAgent wTs),
         { wStore with agents := [] ++ applyUpdate wAgentDoc wUpd :: [] })) ∧
    (applyUpdate wAgentDoc wUpd).id = wAgentDoc.id ∧
    (applyUpdate wAgentDoc wUpd).created_at = wAgentDoc.created_at ∧
    (wUpd.name = none →
      (applyUpdate wAgentDoc wUpd).name = wAgentDoc.name) ∧
    (∀ v, wUpd.name = some v → (applyUpdate wAgentDoc wUpd).name = v) ∧
    (wUpd.description = none →
      (applyUpdate wAgentDoc wUpd).description = wAgentDoc.description) ∧
    (∀ v, wUpd.description = some v →
      (applyUpdate wAgentDoc wUpd).description = v) ∧
    (wUpd.system_prompt = none →
      (applyUpdate wAgentDoc wUpd).system_prompt
        = wAgentDoc.system_prompt) ∧
    (∀ v, wUpd.system_prompt = some v →
      (applyUpdate wAgentDoc wUpd).system_prompt = v) ∧
    (wUpd.language = none →
      (applyUpdate wAgentDoc wUpd).language = wAgentDoc.language) ∧
    (∀ v, wUpd.language = some v →
      (applyUpdate wAgentDoc wUpd).language = v) ∧
    (wUpd.is_active = none →
      (applyUpdate wAgentDoc wUpd).is_active = wAgentDoc.is_active) ∧
    (∀ v, wUpd.is_active = some v →
      (applyUpdate wAgentDoc wUpd).is_active = v) ∧
    (wUpd = {} → update_agent "a1" wUpd wStore
      = (.ok (wAgentDoc.toAgent wTs), wStore)) ∧
    (update_agent "a1" wUpd Store.empty
      = (.error (.notFound "Agent not found"), Store.empty)) :=
  update_agent_spec "a1" wUpd wStore Store.empty [] [] wAgentDoc wTs
    rfl (by decide) rfl (by decide) (by decide)

/-- Reading back a freshly appended agent document. -/
theorem get_agent_append (agents : List AgentDoc)
    (cfgs : List LLMConfigDoc) (convs : List ConversationDoc)
    (doc : AgentDoc) (id : String) (ts : DateTime)
    (hp : ∀ d ∈ agents, d.id ≠ id) (hid : doc.id = id)
    (hts : rehydrate doc.created_at = some ts) :
    get_agent id ⟨agents ++ [doc], cfgs, convs⟩ = .ok (doc.toAgent ts) := by
  have hp' : ∀ d ∈ agents, ((fun a => a.id == id) d) = false :=
    fun d hd => by simp [hp d hd]
  have hfind := find?_middle (fun a => a.id == id) agents [] doc hp'
    (by simp [hid])
  simp only [get_agent, hfind, hts]

/-- C5: Create followed by Get on the returned id yields exactly the created
record — every field equal, the generated creation timestamp having survived
the structured → ISO-8601 string → structured round-trip losslessly. -/
theorem create_then_get (agent_data : AgentCreate) (freshId : String)
    (now : DateTime) (s : Store)
    (hfresh : ∀ d ∈ s.agents, d.id ≠ freshId)
    (hvalid : now.Valid) :
    get_agent freshId (create_agent agent_data freshId now s).2
      = .ok (create_agent agent_data freshId now s).1 ∧
    (create_agent agent_data freshId now s).1.created_at = now := by
  constructor
  · exact get_agent_append s.agents s.llm_configs s.conversations
      (create_agent agent_data freshId now s).1.toDoc freshId now hfresh
      rfl (fromisoformat_isoformat now hvalid)
  · rfl

def wCreate : AgentCreate :=
  { name := "Test", description := "d", system_prompt := "p",
    language := "english" }

def wNow : DateTime := ⟨2024, 6, 2, 3, 4, 5, 123456⟩

theorem create_then_get_witness :
    (∀ d ∈ wStore.agents, d.id ≠ "a2") ∧ wNow.Valid ∧
    (get_agent "a2" (create_agent wCreate "a2" wNow wStore).2
      = .ok (create_agent wCreate "a2" wNow wStore).1 ∧
    (create_agent wCreate "a2" wNow wStore).1.created_at = wNow) :=
  ⟨by decide, by decide,
   create_then_get wCreate "a2" wNow wStore (by decide) (by decide)⟩

theorem take_append_self {α} (l1 l2 : List α) :
    (l1 ++ l2).take l1.length = l1 := by
  induction l1 with
  | nil => simp
  | cons a as ih => simp [ih]

theorem hydrateAgents_replicate (n : Nat) (doc : AgentDoc) (ts : DateTime)
    (hts : rehydrate doc.created_at = some ts) :
    hydrateAgents (List.replicate n doc)
      = some (List.replicate n (doc.toAgent ts)) := by
  induction n with
  | zero => rfl
  | succ n ih => simp [List.replicate_succ, hydrateAgents, hts, ih]

theorem hydrateAgents_total : ∀ l : List AgentDoc,
    (∀ d ∈ l, ∃ ts, rehydrate d.created_at = some ts) →
    ∃ out, hydrateAgents l = some out ∧
      ∀ d ∈ l, ∃ ts, rehydrate d.created_at = some ts ∧
        d.toAgent ts ∈ out := by
  intro l
  induction l with
  | nil => exact fun _ => ⟨[], rfl, by simp⟩
  | cons doc rest ih =>
    intro h
    obtain ⟨ts, hts⟩ := h doc (by simp)
    obtain ⟨out, hout, hmem⟩ := ih fun d hd => h d (by simp [hd])
    refine ⟨doc.toAgent ts :: out, ?_, ?_⟩
    · simp [hydrateAgents, hts, hout]
    · intro d hd
      rcases List.mem_cons.mp hd with rfl | hd'
      · exact ⟨ts, hts, by simp⟩
      · obtain ⟨ts', hts', hmem'⟩ := hmem d hd'
        exact ⟨ts', hts', by simp [hmem']⟩

def cexDocB : AgentDoc :=
  { wAgentDoc with id := "b1", name := "Extra" }

def cexBigStore : Store :=
  ⟨List.replicate 1000 wAgentDoc ++ [cexDocB], [], []⟩

def cexResult : List Agent := List.replicate 1000 (wAgentDoc.toAgent wTs)

/-- C6 (as stated) is false: `get_agents` reads the collection through
`.to_list(1000)`, so on a store of 1001 agents the 1001st stored agent is
absent from the result. -/
theorem get_agents_misses_1001st :
    cexDocB ∈ cexBigStore.agents ∧
    get_agents cexBigStore = some cexResult ∧
    cexDocB.toAgent wTs ∉ cexResult := by
  refine ⟨List.mem_append_right _ (List.mem_singleton_self _), ?_, ?_⟩
  · have htake : (List.replicate 1000 wAgentDoc ++ [cexDocB]).take 1000
        = List.replicate 1000 wAgentDoc := by
      have h := take_append_self (List.replicate 1000 wAgentDoc) [cexDocB]
      rw [List.length_replicate] at h
      exact h
    simp only [get_agents, cexBigStore, htake, cexResult]
    exact hydrateAgents_replicate 1000 wAgentDoc wTs (by decide)
  · intro hmem
    have heq := List.eq_of_mem_replicate hmem
    exact absurd (congrArg Agent.id heq) (by decide)

/-- C6 (amended): List() returns the **first 1000** stored agent documents,
rehydrated; in particular, whenever the agents collection holds at most 1000
documents and every stored timestamp rehydrates, every stored agent appears
in the result. -/
theorem get_agents_returns_all_upto_cap (s : Store)
    (hlen : s.agents.length ≤ 1000)
    (hre : ∀ d ∈ s.agents, ∃ ts, rehydrate d.created_at = some ts) :
    ∃ out, get_agents s = some out ∧
      ∀ d ∈ s.agents, ∃ ts, rehydrate d.created_at = some ts ∧
        d.toAgent ts ∈ out := by
  obtain ⟨out, hout, hmem⟩ := hydrateAgents_total s.agents hre
  refine ⟨out, ?_, hmem⟩
  simp only [get_agents, List.take_of_length_le hlen, hout]

theorem get_agents_returns_all_upto_cap_witness :
    wStore.agents.length ≤ 1000 ∧
    (∀ d ∈ wStore.agents, ∃ ts, rehydrate d.created_at = some ts) ∧
    (∃ out, get_agents wStore = some out ∧
      ∀ d ∈ wStore.agents, ∃ ts, rehydrate d.created_at = some ts ∧
        d.toAgent ts ∈ out) := by
  have hre : ∀ d ∈ wStore.agents, ∃ ts, rehydrate d.created_at = some ts := by
    intro d hd
    have hd' : d = wAgentDoc := by simpa [wStore] using hd
    subst hd'
    exact ⟨wTs, by decide⟩
  exact ⟨by decide, hre,
    get_agents_returns_all_upto_cap wStore (by decide) hre⟩

/-- C8: on an empty agents collection the startup routine creates exactly
one agent named "Order Taking Agent" (the existence check is by name
equality), and running it again returns the store unchanged — no second
default agent. -/
theorem startup_idempotent (freshId freshId2 : String)
    (now now2 : DateTime) (s : Store) (hempty : s.agents = []) :
    ((startup_event freshId now s).agents.countP
        (fun a => a.name == "Order Taking Agent") = 1) ∧
    startup_event freshId2 now2 (startup_event freshId now s)
      = startup_event freshId now s := by
  constructor
  · unfold startup_event
    rw [hempty]
    rfl
  · unfold startup_event
    rw [hempty]
    rfl

theorem startup_idempotent_witness :
    Store.empty.agents = [] ∧
    (((startup_event "d1" wNow Store.empty).agents.countP
        (fun a => a.name == "Order Taking Agent") = 1) ∧
    startup_event "d2" wTs (startup_event "d1" wNow Store.empty)
      = startup_event "d1" wNow Store.empty) :=
  ⟨rfl, startup_idempotent "d1" "d2" wNow wTs Store.empty rfl⟩

/-! ## The operations of the system, for the role invariant -/

/-- One invocation of any handler of this system, with its nondeterministic
inputs (generated ids, timestamps, the external provider's behaviour)
recorded in the constructor. -/
inductive Op where
  | createAgent (d : AgentCreate) (freshId : String) (now : DateTime)
  | listAgents
  | getAgent (agent_id : String)
  | updateAgent (agent_id : String) (u : AgentUpdate)
  | deleteAgent (agent_id : String)
  | createConfig (d : LLMConfigCreate) (freshId : String) (now : DateTime)
  | listConfigs
  | deleteConfig (config_id : String)
  | chat (request : ChatRequest) (fresh : ChatFresh)
      (llm : LlmRequest → Except String String) (key : Option String)
  | startup (freshId : String) (now : DateTime)

/-- The store after one handler invocation (reads leave it unchanged). -/
def applyOp : Op → Store → Store
  | .createAgent d freshId now, s => (create_agent d freshId now s).2
  | .listAgents, s => s
  | .getAgent _, s => s
  | .updateAgent aid u, s => (update_agent aid u s).2
  | .deleteAgent aid, s => (delete_agent aid s).2
  | .createConfig d freshId now, s => (create_llm_config d freshId now s).2
  | .listConfigs, s => s
  | .deleteConfig cid, s => (delete_llm_config cid s).2
  | .chat request fresh llm key, s =>
      (chat_with_agent request fresh llm key s).2
  | .startup freshId now, s => startup_event freshId now s

/-- Every persisted conversation turn has role "user" or "assistant". -/
def RolesOK (s : Store) : Prop :=
  ∀ m ∈ s.conversations, m.role = "user" ∨ m.role = "assistant"

theorem update_agent_conversations (aid : String) (u : AgentUpdate)
    (s : Store) : (update_agent aid u s).2.conversations = s.conversations := by
  unfold update_agent
  split
  · rfl
  · dsimp only
    split
    · split <;> rfl
    · split
      · split <;> rfl
      · split <;> rfl

theorem delete_agent_conversations (aid : String) (s : Store) :
    (delete_agent aid s).2.conversations = s.conversations := by
  unfold delete_agent
  split
  split <;> rfl

theorem delete_llm_config_conversations (cid : String) (s : Store) :
    (delete_llm_config cid s).2.conversations = s.conversations := by
  unfold delete_llm_config
  split
  split <;> rfl

theorem startup_conversations (freshId : String) (now : DateTime)
    (s : Store) : (startup_event freshId now s).conversations
      = s.conversations := by
  unfold startup_event
  split <;> rfl

theorem applyOp_roles (op : Op) (s : Store) (h : RolesOK s) :
    RolesOK (applyOp op s) := by
  cases op with
  | createAgent d f n => exact h
  | listAgents => exact h
  | getAgent aid => exact h
  | updateAgent aid u =>
    intro m hm
    simp only [applyOp, update_agent_conversations] at hm
    exact h m hm
  | deleteAgent aid =>
    intro m hm
    simp only [applyOp, delete_agent_conversations] at hm
    exact h m hm
  | createConfig d f n => exact h
  | listConfigs => exact h
  | deleteConfig cid =>
    intro m hm
    simp only [applyOp, delete_llm_config_conversations] at hm
    exact h m hm
  | chat request fresh llm key =>
    intro m hm
    simp only [applyOp] at hm
    unfold chat_with_agent at hm
    split at hm
    · exact h m hm
    · dsimp only at hm
      split at hm
      · exact h m hm
      · rcases List.mem_append.mp hm with hold | hnew
        · exact h m hold
        · simp only [List.mem_cons, List.mem_singleton] at hnew
          rcases hnew with rfl | rfl | hfalse
          · left; rfl
          · right; rfl
          · exact absurd hfalse (List.not_mem_nil m)
  | startup f n =>
    intro m hm
    simp only [applyOp, startup_conversations] at hm
    exact h m hm

/-- C10: although `role` is an unvalidated free-form string, every
`ConversationMessage` document this system ever writes — over any sequence
of handler invocations starting from an empty store — has role exactly
"user" or exactly "assistant". -/
theorem conversation_roles_invariant (ops : List Op) :
    RolesOK (ops.foldl (fun s op => applyOp op s) Store.empty) := by
  have gen : ∀ (l : List Op) (s : Store), RolesOK s →
      RolesOK (l.foldl (fun s op => applyOp op s) s) := by
    intro l
    induction l with
    | nil => exact fun s hs => hs
    | cons op rest ih => exact fun s hs => ih _ (applyOp_roles op s hs)
  exact gen ops Store.empty fun m hm => absurd hm (List.not_mem_nil m)

theorem conversation_roles_invariant_witness :
    RolesOK (([Op.startup "d1" wNow,
      Op.chat wReqNoSession wFresh wLlmOk none,
      Op.createAgent wCreate "a9" wNow]).foldl
        (fun s op => applyOp op s) Store.empty) :=
  conversation_roles_invariant [Op.startup "d1" wNow,
    Op.chat wReqNoSession wFresh wLlmOk none,
    Op.createAgent wCreate "a9" wNow]
